import Mathlib

/-!
Shallow embedding of the `exercises-tech` repository (React/Express exercise
files) and proofs about the claims of its specification.

Source files embedded:
- the `UserStatistics` component (KISS exercise file),
- `data-model.js` (Mongoose task schema + Express task router, `ProductSearch`,
  the `api` service class and `OrdersDashboard`),
- `service.js` (`apiClient`, `authService`, `userService`).

JavaScript numbers that the claims reason about (transaction amounts, order
totals) are modelled as rationals; machine floating point is not load-bearing
for any claim. Parsed JSON is modelled by the inductive `Json`; `Option Json`
models a possibly-`undefined` JavaScript value.
-/

/-- A parsed JSON value, as produced by `response.json()`.  JSON has exactly
null, booleans, numbers, strings, arrays and objects; in particular a value
parsed from JSON can never contain a function, so calling a method such as
`.json()` on it always throws a `TypeError`. Numbers are modelled as
rationals. -/
inductive Json where
  | null : Json
  | bool (b : Bool) : Json
  | num (q : ℚ) : Json
  | str (s : String) : Json
  | arr (xs : List Json) : Json
  | obj (fields : List (String × Json)) : Json

/-- Field access `v.f` on a parsed JSON value: `some` the field's value when
`v` is an object carrying the field, `none` (JavaScript `undefined`)
otherwise. -/
def jsonGetField (v : Json) (name : String) : Option Json :=
  match v with
  | .obj fields =>
    match fields.find? (fun kv => kv.1 = name) with
    | some kv => some kv.2
    | none => none
  | _ => none

/-- JavaScript truthiness of a parsed JSON value: `null`, `false`, `0` and the
empty string are falsy; every array and object is truthy. -/
def jsTruthyV : Json → Bool
  | .null => false
  | .bool b => b
  | .num q => q ≠ 0
  | .str s => s ≠ ""
  | .arr _ => true
  | .obj _ => true

/-- JavaScript truthiness of a possibly-`undefined` value (`undefined` is
falsy). -/
def jsTruthy : Option Json → Bool
  | none => false
  | some v => jsTruthyV v

/-- Whether a JSON value is `null`. -/
def Json.isNull : Json → Bool
  | .null => true
  | _ => false

/-- JavaScript string coercion `String(v)` of a parsed JSON value, as used by
`new Error(v)`: arrays join their elements with commas (with `null` rendered
empty inside an array), plain objects render as the object tag. -/
def jsToString : Json → String
  | .null => "null"
  | .bool b => cond b "true" "false"
  | .num q => toString q
  | .str s => s
  | .obj _ => "[object Object]"
  | .arr xs =>
    String.intercalate "," (xs.attach.map (fun j =>
      cond (Json.isNull j.1) "" (jsToString j.1)))
decreasing_by
  simp_wf
  exact Nat.lt_of_lt_of_le (List.sizeOf_lt_of_mem j.2) (by simp)

/-- JavaScript `a || b` on a possibly-`undefined` left operand: the left value
when truthy, otherwise the right one. -/
def jsOr (a : Option Json) (b : Json) : Json :=
  match a with
  | some v => if jsTruthyV v then v else b
  | none => b

/-- Insert a value at the end of a list unless already present: one step of
building a JavaScript `Set` (which keeps insertion order and first
occurrences). Also the update order of the first-occurrence key order of a
plain-object map built by repeated assignment. -/
def insertIfAbsent (acc : List String) (x : String) : List String :=
  if x ∈ acc then acc else acc ++ [x]

/-- The element list of `new Set(l)` (equivalently, the key list of a frequency
map built over `l` by insertion): the distinct elements of `l` in order of
first occurrence. -/
def jsSetOf (l : List String) : List String :=
  l.foldl insertIfAbsent []

/-! ## UserStatistics (KISS exercise component) -/

/-- A transaction as consumed by `UserStatistics`: only `amount` and
`category` are read. -/
structure Transaction where
  amount : ℚ
  category : String
deriving DecidableEq

/-- The user record as consumed by `UserStatistics`: only `totalSpent` is
read. -/
structure UserRec where
  totalSpent : ℚ
deriving DecidableEq

/-- The `averageSpend` value computed by `UserStatistics`: initialised to `0`
and, when the transaction list is non-empty, overwritten with
`transactions.reduce((sum, t) => sum + t.amount, 0) / transactions.length`. -/
def averageSpend (transactions : List Transaction) : ℚ :=
  if 0 < transactions.length then
    (transactions.foldl (fun sum t => sum + t.amount) 0) / (transactions.length : ℚ)
  else 0

/-- The category list of a transaction list (the values `t.category`). -/
def categoriesOf (transactions : List Transaction) : List String :=
  transactions.map (fun t => t.category)

/-- The count stored in `frequencyMap[c]` after the `forEach` loop of
`UserStatistics`: the number of transactions with category `c`. -/
def freqOf (transactions : List Transaction) (c : String) : ℕ :=
  (categoriesOf transactions).count c

/-- One iteration of the `for (const category in frequencyMap)` loop of
`UserStatistics`: the accumulator is the pair `(maxCount, topCategory)` and is
replaced when the current category's frequency strictly exceeds `maxCount`. -/
def topCatStep (f : String → ℕ) (acc : ℕ × String) (c : String) : ℕ × String :=
  if acc.1 < f c then (f c, c) else acc

/-- The `topCategory` value computed by `UserStatistics`: initialised to
`"None"`; when the transaction list is non-empty, the loop over the frequency
map's keys (the distinct categories in first-occurrence order) keeps the first
category whose count strictly exceeds the running maximum, starting from
`maxCount = 0`. -/
def topCategory (transactions : List Transaction) : String :=
  if 0 < transactions.length then
    ((jsSetOf (categoriesOf transactions)).foldl
      (topCatStep (freqOf transactions)) (0, "None")).2
  else "None"

/-- The `userTier` value computed by `UserStatistics`: initialised to
`"Silver"` and only recomputed inside the `if (transactions.length > 0)`
block, where `user?.totalSpent > 10000` yields `"Platinum"` and otherwise
`user?.totalSpent > 5000` yields `"Gold"`.  The user is optional
(`user?.totalSpent` is `undefined` for a null user, and any comparison with
`undefined` is false). -/
def userTier (user : Option UserRec) (transactions : List Transaction) : String :=
  if 0 < transactions.length then
    if (match user with | some u => decide (u.totalSpent > 10000) | none => false) then
      "Platinum"
    else if (match user with | some u => decide (u.totalSpent > 5000) | none => false) then
      "Gold"
    else "Silver"
  else "Silver"

/-! ## Task router (data-model.js: models/task.js + controllers/taskController.js) -/

/-- A schema-level default value appearing in the Mongoose task/comment
schemas. -/
inductive SchemaDefault where
  | strVal (s : String) : SchemaDefault
  | emptyList : SchemaDefault
  | dateNow : SchemaDefault
deriving DecidableEq

/-- A field of a Mongoose schema, recording only the constraints the claims
are about: an `enum` list of allowed values (if any) and a schema-enforced
`default` (if any). -/
structure SchemaField where
  name : String
  enumVals : Option (List String)
  dfault : Option SchemaDefault
deriving DecidableEq

/-- The fields of `taskSchema` from `models/task.js`, with their `enum` and
`default` options exactly as declared in the source. -/
def taskSchemaFields : List SchemaField :=
  [ ⟨"title", none, none⟩,
    ⟨"description", none, none⟩,
    ⟨"status", some ["todo", "in_progress", "review", "done"], some (.strVal "todo")⟩,
    ⟨"createdBy", none, none⟩,
    ⟨"assignedTo", none, none⟩,
    ⟨"comments", none, some .emptyList⟩,
    ⟨"priority", some ["low", "medium", "high"], some (.strVal "medium")⟩,
    ⟨"dueDate", none, none⟩ ]

/-- The fields of `commentSchema` from `models/task.js`. -/
def commentSchemaFields : List SchemaField :=
  [ ⟨"text", none, none⟩,
    ⟨"createdAt", none, some .dateNow⟩,
    ⟨"user_id", none, none⟩,
    ⟨"user_name", none, none⟩,
    ⟨"user_avatar", none, none⟩ ]

/-- A user document as read by the task router (`User.findById`). -/
structure UserDoc where
  id : String
  name : String
  email : String
  avatar : String
deriving DecidableEq

/-- The denormalised `createdBy` block stored inside a task. -/
structure CreatedBy where
  user_id : String
  name : String
  email : String
  avatar : String
deriving DecidableEq

/-- A task document as stored and returned by the task router. -/
structure TaskDoc where
  title : String
  description : String
  status : String
  priority : String
  dueDate : String
  createdBy : Option CreatedBy
deriving DecidableEq

/-- The JSON payload placed in the `data` field of a router response. -/
inductive Payload where
  | pNull : Payload
  | pTask (t : TaskDoc) : Payload
  | pTasks (ts : List TaskDoc) : Payload
deriving DecidableEq

/-- An HTTP response sent by the task router: the status code and the JSON
envelope, with `data` and `error` recorded as optional so that their absence
is observable. -/
structure ApiResponse where
  status : ℕ
  ok : Bool
  data : Option Payload
  error : Option String
deriving DecidableEq

/-- Outcome of an awaited Mongoose call: either a value or a thrown error
(caught by the route handler's `catch`). -/
inductive DbResult (α : Type) where
  | ok (a : α) : DbResult α
  | thrown : DbResult α

/-- Handler of `GET /:id`: responds `200 {ok: true, data: task}` with whatever
`Task.findById` resolved to (including `null` when no task matches), and
`500 {ok: false, error: "Failed to get task"}` when the lookup throws. -/
def getTaskById (findRes : DbResult (Option TaskDoc)) : ApiResponse :=
  match findRes with
  | .ok t =>
    ⟨200, true, some (match t with | some task => .pTask task | none => .pNull), none⟩
  | .thrown => ⟨500, false, none, some "Failed to get task"⟩

/-- The request body of `POST /` (the fields the handler destructures). -/
structure TaskBody where
  title : String
  description : String
  status : String
  priority : String
  dueDate : String
  user_id : String
deriving DecidableEq

/-- Handler of `POST /`: looks up the creating user, answers
`404 {ok: false, error: "User not found"}` when absent, otherwise builds the
task with a denormalised `createdBy` block and answers `201` with it; any
thrown lookup or save error yields `500 {ok: false, error: "Failed to create task"}`. -/
def createTask (body : TaskBody) (userRes : DbResult (Option UserDoc))
    (saveOk : Bool) : ApiResponse :=
  match userRes with
  | .thrown => ⟨500, false, none, some "Failed to create task"⟩
  | .ok none => ⟨404, false, none, some "User not found"⟩
  | .ok (some user) =>
    if saveOk then
      ⟨201, true,
        some (.pTask ⟨body.title, body.description, body.status, body.priority,
          body.dueDate, some ⟨user.id, user.name, user.email, user.avatar⟩⟩),
        none⟩
    else ⟨500, false, none, some "Failed to create task"⟩

/-- Handler of `POST /search`: answers `200` with the list `Task.find`
resolved to, or `500 {ok: false, error: "Failed to search tasks"}`. -/
def searchTasks (findRes : DbResult (List TaskDoc)) : ApiResponse :=
  match findRes with
  | .ok ts => ⟨200, true, some (.pTasks ts), none⟩
  | .thrown => ⟨500, false, none, some "Failed to search tasks"⟩

/-- Handler of `PUT /:id`: `findByIdAndUpdate` resolving to `null` yields
`404 {ok: false, error: "Task not found"}`, a document yields `200` with it,
and a thrown error yields `500 {ok: false, error: "Failed to update task"}`. -/
def updateTask (updRes : DbResult (Option TaskDoc)) : ApiResponse :=
  match updRes with
  | .ok none => ⟨404, false, none, some "Task not found"⟩
  | .ok (some task) => ⟨200, true, some (.pTask task), none⟩
  | .thrown => ⟨500, false, none, some "Failed to update task"⟩

/-- Handler of `DELETE /:id`: `findByIdAndDelete` resolving to `null` yields
`404 {ok: false, error: "Task not found"}`, a document yields `200` with it,
and a thrown error yields `500 {ok: false, error: "Failed to delete task"}`. -/
def deleteTask (delRes : DbResult (Option TaskDoc)) : ApiResponse :=
  match delRes with
  | .ok none => ⟨404, false, none, some "Task not found"⟩
  | .ok (some task) => ⟨200, true, some (.pTask task), none⟩
  | .thrown => ⟨500, false, none, some "Failed to delete task"⟩

/-- A response obeys the JSON envelope convention when it carries `ok: true`
together with a `data` field and no `error`, or `ok: false` together with an
`error` string and no `data`. -/
def isEnvelope (r : ApiResponse) : Prop :=
  (r.ok = true ∧ r.data.isSome ∧ r.error = none) ∨
  (r.ok = false ∧ r.error.isSome ∧ r.data = none)

/-! ## services/api.js and OrdersDashboard (data-model.js, architecture exercise) -/

/-- Outcome of a browser `fetch` as seen by the `api` class: the promise may
reject (network error), or resolve to a response whose `status`/`ok` come from
the server and whose body parses to a JSON value (`none` when
`response.json()` itself rejects on a non-JSON body). -/
inductive FetchOutcome where
  | netErr : FetchOutcome
  | reply (status : ℕ) (ok : Bool) (body : Option Json) : FetchOutcome

/-- A JavaScript error as propagated through the promise chains of the
exercise: a rejected fetch, a rejected body parse, a `TypeError` raised by
calling a missing method, or a parsed-JSON value used as a rejection reason
(as in `reject(res)` of `api.post`). -/
inductive JsErr where
  | netError : JsErr
  | parseError : JsErr
  | typeError (msg : String) : JsErr
  | rejectedWith (res : Json) : JsErr
  | thrownError (msg : String) : JsErr

/-- Rendering of the error argument by `console.error(prefix, error)`, which
never throws: error objects render via their message, and a parsed-JSON
rejection reason is printed as the value itself. -/
def consoleErrShow : JsErr → String
  | .netError => "Failed to fetch"
  | .parseError => "Unexpected end of JSON input"
  | .typeError msg => msg
  | .thrownError msg => msg
  | .rejectedWith res => jsToString res

/-- Reading `err.message` inside a `catch (err) { ... }` handler. The read
itself can throw: when the rejection reason is parsed JSON `null`,
`err.message` is a property access on `null` and raises a `TypeError` (the
`.error` case carries its message), so the rest of the handler never runs.
Error objects yield their message string; any other parsed-JSON reason yields
its `message` field, which is `undefined` (`none`) when the field is absent or
the reason is a primitive. -/
def errMessageRead : JsErr → Except String (Option Json)
  | .netError => .ok (some (.str "Failed to fetch"))
  | .parseError => .ok (some (.str "Unexpected end of JSON input"))
  | .typeError msg => .ok (some (.str msg))
  | .thrownError msg => .ok (some (.str msg))
  | .rejectedWith .null => .error "Cannot read properties of null (reading message)"
  | .rejectedWith res => .ok (jsonGetField res "message")

/-- Rendering of a possibly-`undefined` value inside a template literal. -/
def jsTemplate : Option Json → String
  | none => "undefined"
  | some v => jsToString v

/-- Method `post` of the `api` class (`services/api.js`): fetches, parses the
body with `response.json()`, rejects with the parsed value when the status is
not 200, and otherwise resolves with the parsed value — not with the
`Response` object. -/
def apiPost (f : FetchOutcome) : Except JsErr Json :=
  match f with
  | .netErr => .error .netError
  | .reply status _ body =>
    match body with
    | none => .error .parseError
    | some res => if status ≠ 200 then .error (.rejectedWith res) else .ok res

/-- Method `put` of the `api` class (`services/api.js`): fetches, parses the
body with `response.json()` and resolves with the parsed value regardless of
the status — not with the `Response` object. -/
def apiPut (f : FetchOutcome) : Except JsErr Json :=
  match f with
  | .netErr => .error .netError
  | .reply _ _ body =>
    match body with
    | none => .error .parseError
    | some res => .ok res

/-- Method `get` of the `api` class (`services/api.js`): like `put`, resolves
with the parsed JSON body regardless of the status. -/
def apiGet (f : FetchOutcome) : Except JsErr Json :=
  match f with
  | .netErr => .error .netError
  | .reply _ _ body =>
    match body with
    | none => .error .parseError
    | some res => .ok res

/-- Calling `.json()` on a value that the `api` class resolved with: that
value is parsed JSON, and a JSON value carries no methods (JSON cannot encode
functions), so the call always throws a `TypeError` — reading `null`
or a missing/non-callable `json` property both end in a thrown `TypeError`. -/
def callJsonMethod (v : Json) : Except JsErr Json :=
  match v with
  | .null => .error (.typeError "Cannot read properties of null (reading json)")
  | _ => .error (.typeError "response.json is not a function")

/-- The user-visible outcome of a dashboard action that reports through
`alert`: a success alert, an error alert, or no alert at all because the
`catch` handler itself threw (the async function's promise rejects
unhandled). -/
inductive AlertOutcome where
  | successAlert (msg : String) : AlertOutcome
  | errorAlert (msg : String) : AlertOutcome
  | uncaughtThrow (msg : String) : AlertOutcome
deriving DecidableEq

/-- The `catch (err)` block shared in shape by `sendReminderEmail` and
`markAsShipped`: it alerts the template rendering of `err.message` — unless
that very read throws (rejection reason `null`), in which case no alert is
shown. -/
def catchAlert (e : JsErr) : AlertOutcome :=
  match errMessageRead e with
  | .error tm => .uncaughtThrow tm
  | .ok m => .errorAlert ("Error: " ++ jsTemplate m)

/-- Function `sendReminderEmail` of `services/mail.js`: awaits
`API.post(...)`, calls `.json()` on the resolved value, checks `response.ok`,
and alerts success; any throw along the way lands in the `catch`, which alerts
the error message. The `orderId` only selects the URL. -/
def sendReminderEmail (_orderId : String) (f : FetchOutcome) : AlertOutcome :=
  match apiPost f with
  | .error e => catchAlert e
  | .ok response =>
    match callJsonMethod response with
    | .error e => catchAlert e
    | .ok data =>
      if ¬ jsTruthy (jsonGetField response "ok") then
        catchAlert (.thrownError (jsToString (jsOr (jsonGetField data "message")
          (.str "Failed to send reminder"))))
      else .successAlert "Reminder email sent successfully"

/-- An order as consumed by `OrdersDashboard` and its helpers: the fields the
embedded code reads. -/
structure Order where
  id : String
  customerEmail : String
  status : String
  total : ℚ
deriving DecidableEq

/-- Function `getCustomerEmails` of `utils/index.js`:
`[...new Set(orders.map((order) => order.customerEmail))]`. -/
def getCustomerEmails (orders : List Order) : List String :=
  jsSetOf (orders.map (fun order => order.customerEmail))

/-- Function `calculateTotalRevenue` of `utils/index.js`. -/
def calculateTotalRevenue (orders : List Order) : ℚ :=
  orders.foldl (fun sum order => sum + order.total) 0

/-- The component state of `OrdersDashboard` touched by `fetchOrders`. The
`error` slot holds whatever JavaScript value `setError` last stored (`none`
models `undefined`; the component initialises it to `some .null`). -/
structure DashState where
  orders : List Order
  loading : Bool
  error : Option Json

/-- Best-effort decoding of a parsed JSON value into order records, used only
on the code path of `fetchOrders` that follows the (always-throwing)
`response.json()` call and is therefore unreachable. -/
def decodeOrders (j : Json) : List Order :=
  match j with
  | .arr xs => xs.map (fun o =>
      ⟨jsToString (jsOr (jsonGetField o "id") (.str "")),
       jsToString (jsOr (jsonGetField o "customerEmail") (.str "")),
       jsToString (jsOr (jsonGetField o "status") (.str "")),
       0⟩)
  | _ => []

/-- What a run of `fetchOrders` did to component state: stored fetched
orders, stored an error value, or threw inside its own `catch` handler — in
the last case nothing but `loading` changes and the promise rejects. -/
inductive FetchRunOutcome where
  | setOrdersCalled (os : List Order) : FetchRunOutcome
  | setErrorCalled (m : Option Json) : FetchRunOutcome
  | catchThrew (tm : String) : FetchRunOutcome

/-- The `catch`/`finally` of `fetchOrders`: `setError(err.message)` when the
read succeeds; reading `err.message` on a `null` rejection reason throws
first, leaving the error state unchanged. The `finally` clears `loading`
either way. -/
def fetchOrdersCatch (e : JsErr) (s : DashState) : DashState × FetchRunOutcome :=
  match errMessageRead e with
  | .error tm => (⟨s.orders, false, s.error⟩, .catchThrew tm)
  | .ok m => (⟨s.orders, false, m⟩, .setErrorCalled m)

/-- Function `fetchOrders` of `OrdersDashboard`: awaits
`API.post("/orders/search", filters)`, calls `.json()` on the resolved value,
checks `response.ok` and stores the data with `setOrders`; any throw lands in
the `catch` (`setError(err.message)`), and the `finally` clears `loading`.
The `filters` value only shapes the request body. Returns the resulting state
together with what the run did. -/
def fetchOrders (_filters : Json) (f : FetchOutcome) (s : DashState) :
    DashState × FetchRunOutcome :=
  match apiPost f with
  | .error e => fetchOrdersCatch e s
  | .ok response =>
    match callJsonMethod response with
    | .error e => fetchOrdersCatch e s
    | .ok data =>
      if ¬ jsTruthy (jsonGetField response "ok") then
        fetchOrdersCatch (.thrownError (jsToString (jsOr (jsonGetField data "message")
          (.str "Failed to fetch orders")))) s
      else (⟨decodeOrders data, false, s.error⟩, .setOrdersCalled (decodeOrders data))

/-- Function `markAsShipped` of `OrdersDashboard`: awaits
`API.put(.../orderId, {status: "shipped"})`, calls `.json()` on the resolved
value, checks `response.ok`, rewrites the matching order's status in state and
alerts success; any throw lands in the `catch`, which alerts the error
message. Returns the resulting orders state together with the alert. -/
def markAsShipped (orderId : String) (f : FetchOutcome) (orders : List Order) :
    List Order × AlertOutcome :=
  match apiPut f with
  | .error e => (orders, catchAlert e)
  | .ok response =>
    match callJsonMethod response with
    | .error e => (orders, catchAlert e)
    | .ok data =>
      if ¬ jsTruthy (jsonGetField response "ok") then
        (orders,
         catchAlert (.thrownError (jsToString (jsOr (jsonGetField data "message")
           (.str "Failed to update order")))))
      else
        (orders.map (fun order =>
          if order.id = orderId then ⟨order.id, order.customerEmail, "shipped", order.total⟩
          else order),
         .successAlert "Order marked as shipped")

/-- Replies on which `api.post` rejects with parsed JSON `null` as the
reason: a status other than 200 whose body parses to `null`. -/
def rejectsNullReason : FetchOutcome → Bool
  | .reply status _ (some .null) => status ≠ 200
  | _ => false

/-- Claim C3 as stated: for every order id, filter and server reply, the three
dashboard operations end in their catch handler's normal path — an error alert
for `sendReminderEmail` and `markAsShipped` with unchanged orders, and a
stored error message with unchanged orders for `fetchOrders`. -/
def dashboardCatchClaim : Prop :=
  (∀ oid f, ∃ m, sendReminderEmail oid f = .errorAlert m) ∧
  (∀ fl f s, (fetchOrders fl f s).1.orders = s.orders ∧
    (fetchOrders fl f s).1.loading = false ∧
    ∃ m, (fetchOrders fl f s).2 = .setErrorCalled m) ∧
  (∀ oid f os, (markAsShipped oid f os).1 = os ∧
    ∃ m, (markAsShipped oid f os).2 = .errorAlert m)

/-! ## service.js: apiClient, authService, useSearchStateStorage state -/

/-- Awaiting `response.json()` on a fetch reply: the parsed value, or a thrown
parse error when the body is not JSON. -/
def parseBody : Option Json → Except JsErr Json
  | none => .error .parseError
  | some j => .ok j

/-- The error message built by `new Error(data.message || "API request failed")`
in `apiClient`. -/
def apiClientErrMsg (data : Json) : String :=
  jsToString (jsOr (jsonGetField data "message") (.str "API request failed"))

/-- Method `get` of `apiClient` (`service.js`): when the reply is not ok it
parses the body and throws `Error(data.message || "API request failed")`,
otherwise it returns the parsed body; the `catch` logs the error
(`console.error("API GET error:", error)`) and rethrows it unchanged. The
returned pair is (result, console log). -/
def apiClientGet (f : FetchOutcome) : Except JsErr Json × List String :=
  let attempt : Except JsErr Json :=
    match f with
    | .netErr => .error .netError
    | .reply _ ok body =>
      if ¬ ok then do
        let data ← parseBody body
        throw (.thrownError (apiClientErrMsg data))
      else parseBody body
  match attempt with
  | .ok d => (.ok d, [])
  | .error e => (.error e, ["API GET error: " ++ consoleErrShow e])

/-- Method `post` of `apiClient` (`service.js`): parses the body first, throws
`Error(data.message || "API request failed")` when the reply is not ok, and
otherwise returns the parsed body; the `catch` logs
(`console.error("API POST error:", error)`) and rethrows unchanged. The
request body only shapes the request. -/
def apiClientPost (f : FetchOutcome) : Except JsErr Json × List String :=
  let attempt : Except JsErr Json :=
    match f with
    | .netErr => .error .netError
    | .reply _ ok body => do
      let data ← parseBody body
      if ¬ ok then throw (.thrownError (apiClientErrMsg data))
      pure data
  match attempt with
  | .ok d => (.ok d, [])
  | .error e => (.error e, ["API POST error: " ++ consoleErrShow e])

/-- Method `put` of `apiClient` (`service.js`): same shape as `post`, logging
with the `"API PUT error:"` prefix. -/
def apiClientPut (f : FetchOutcome) : Except JsErr Json × List String :=
  let attempt : Except JsErr Json :=
    match f with
    | .netErr => .error .netError
    | .reply _ ok body => do
      let data ← parseBody body
      if ¬ ok then throw (.thrownError (apiClientErrMsg data))
      pure data
  match attempt with
  | .ok d => (.ok d, [])
  | .error e => (.error e, ["API PUT error: " ++ consoleErrShow e])

/-- The error message C4 asserts for failed requests: the response body's
`message` field if present, `"API request failed"` otherwise. Written from the
claim's words, to be compared with the code's `apiClientErrMsg`. -/
def specMessagePresent (body : Json) : String :=
  match jsonGetField body "message" with
  | some v => jsToString v
  | none => "API request failed"

/-- The amended error message: the response body's `message` field if present
and truthy, `"API request failed"` otherwise. Written from the amended
claim's words, to be compared with the code's `apiClientErrMsg`. -/
def specMessageTruthy (body : Json) : String :=
  match jsonGetField body "message" with
  | some v => if jsTruthyV v then jsToString v else "API request failed"
  | none => "API request failed"

/-- Claim C4 as stated, over replies carrying well-formed JSON bodies: each
apiClient method returns the parsed body exactly when `response.ok`, and
otherwise throws an error whose message is the body's `message` field if
present and `"API request failed"` otherwise, logging the same error it
rethrows. -/
def apiClientSpecClaim : Prop :=
  ∀ (status : ℕ) (body : Json),
    (apiClientGet (.reply status true (some body)) = (.ok body, []) ∧
     apiClientPost (.reply status true (some body)) = (.ok body, []) ∧
     apiClientPut (.reply status true (some body)) = (.ok body, [])) ∧
    (apiClientGet (.reply status false (some body)) =
      (.error (.thrownError (specMessagePresent body)),
       ["API GET error: " ++ specMessagePresent body]) ∧
     apiClientPost (.reply status false (some body)) =
      (.error (.thrownError (specMessagePresent body)),
       ["API POST error: " ++ specMessagePresent body]) ∧
     apiClientPut (.reply status false (some body)) =
      (.error (.thrownError (specMessagePresent body)),
       ["API PUT error: " ++ specMessagePresent body]))

/-- The module-level state of the `api` singleton of `services/api.js`: the
instance field `this.token`, initialised to `""` by the constructor and shared
by every caller of the exported `API` object. -/
structure ApiTokenState where
  token : String
deriving DecidableEq

/-- The `api` constructor: `this.token = ""`. -/
def apiConstructor : ApiTokenState := ⟨""⟩

/-- Method `setToken` of the `api` singleton: overwrites the module-level
token. -/
def apiSetToken (_s : ApiTokenState) (t : String) : ApiTokenState := ⟨t⟩

/-- Method `removeToken` of the `api` singleton: resets the module-level
token to `""`. -/
def apiRemoveToken (_s : ApiTokenState) : ApiTokenState := ⟨""⟩

/-- Method `getToken` of the `api` singleton. -/
def apiGetToken (s : ApiTokenState) : String := s.token

/-- Browser `localStorage.setItem`: replaces any entry under the key. The
store is modelled as an association list. -/
def lsSetItem (ls : List (String × String)) (k v : String) : List (String × String) :=
  (ls.filter (fun kv => kv.1 ≠ k)) ++ [(k, v)]

/-- Browser `localStorage.removeItem`. -/
def lsRemoveItem (ls : List (String × String)) (k : String) : List (String × String) :=
  ls.filter (fun kv => kv.1 ≠ k)

/-- Browser `localStorage.getItem` (`none` for a missing key). -/
def lsGetItem (ls : List (String × String)) (k : String) : Option String :=
  (ls.find? (fun kv => kv.1 = k)).map (fun kv => kv.2)

/-- The effect body of `useSearchStateStorage` (ProductSearch exercise): when
`saveSearchState` is set it writes the query and the serialised filters to
browser-global `localStorage`. -/
def searchStateEffect (saveSearchState : Bool) (query filtersJson : String)
    (ls : List (String × String)) : List (String × String) :=
  if saveSearchState then
    lsSetItem (lsSetItem ls "lastSearchQuery" query) "lastSearchFilters" filtersJson
  else ls

/-- The effect cleanup of `useSearchStateStorage`: removes both keys when
`saveSearchState` is set. -/
def searchStateCleanup (saveSearchState : Bool)
    (ls : List (String × String)) : List (String × String) :=
  if saveSearchState then
    lsRemoveItem (lsRemoveItem ls "lastSearchQuery") "lastSearchFilters"
  else ls

/-- The `localStorage` write performed by `authService.login` on success:
`localStorage.setItem("user", JSON.stringify(data.user))`, with the serialised
user passed as a string. -/
def authLoginStore (ls : List (String × String)) (userJson : String) :
    List (String × String) :=
  lsSetItem ls "user" userJson

/-- The `localStorage` write performed by `authService.logout`:
`localStorage.removeItem("user")`. -/
def authLogoutStore (ls : List (String × String)) : List (String × String) :=
  lsRemoveItem ls "user"

/-- The `localStorage` update performed by `userService.updateUserProfile`
after a successful `PUT`: it re-reads the stored `"user"` entry and, when one
is present, overwrites it with the merged serialisation (passed as a
string). -/
def userProfileStore (ls : List (String × String)) (mergedJson : String) :
    List (String × String) :=
  match lsGetItem ls "user" with
  | some _ => lsSetItem ls "user" mergedJson
  | none => ls

/-- Claim C6 as stated: no operation writes to mutable state other than
component-local UI state — in particular the `api` token methods, the
`useSearchStateStorage` effect and the `authService` storage writes would all
have to leave module-level and browser-global state unchanged. -/
def noSharedMutableStateClaim : Prop :=
  (∀ (s : ApiTokenState) (t : String), apiSetToken s t = s) ∧
  (∀ (s : ApiTokenState), apiRemoveToken s = s) ∧
  (∀ (b : Bool) (q fj : String) (ls : List (String × String)),
    searchStateEffect b q fj ls = ls) ∧
  (∀ (ls : List (String × String)) (uj : String), authLoginStore ls uj = ls)

/-! ## Lemmas about the Set/frequency-map machinery -/

/-- Membership in a fold of `insertIfAbsent`: exactly the accumulator's and
the list's elements. -/
theorem mem_foldl_insertIfAbsent (x : String) :
    ∀ (l acc : List String), x ∈ l.foldl insertIfAbsent acc ↔ x ∈ acc ∨ x ∈ l := by
  intro l
  induction l with
  | nil => intro acc; simp
  | cons a l ih =>
    intro acc
    rw [List.foldl_cons, ih]
    unfold insertIfAbsent
    by_cases h : a ∈ acc
    · rw [if_pos h, List.mem_cons]
      constructor
      · rintro (hx | hx)
        · exact Or.inl hx
        · exact Or.inr (Or.inr hx)
      · rintro (hx | hx | hx)
        · exact Or.inl hx
        · exact Or.inl (hx ▸ h)
        · exact Or.inr hx
    · rw [if_neg h]
      simp only [List.mem_append, List.mem_singleton, List.mem_cons]
      tauto

/-- A fold of `insertIfAbsent` over a duplicate-free accumulator stays
duplicate-free. -/
theorem nodup_foldl_insertIfAbsent :
    ∀ (l acc : List String), acc.Nodup → (l.foldl insertIfAbsent acc).Nodup := by
  intro l
  induction l with
  | nil => intro acc h; simpa using h
  | cons a l ih =>
    intro acc h
    rw [List.foldl_cons]
    apply ih
    unfold insertIfAbsent
    by_cases ha : a ∈ acc
    · rwa [if_pos ha]
    · rw [if_neg ha]
      rw [List.nodup_append]
      refine ⟨h, List.nodup_singleton a, ?_⟩
      intro x hx hxa
      rw [List.mem_singleton] at hxa
      exact ha (hxa ▸ hx)

/-- The elements of `jsSetOf l` are exactly those of `l`. -/
theorem mem_jsSetOf (x : String) (l : List String) : x ∈ jsSetOf l ↔ x ∈ l := by
  unfold jsSetOf
  rw [mem_foldl_insertIfAbsent]
  simp

/-- `jsSetOf l` has no duplicates. -/
theorem nodup_jsSetOf (l : List String) : (jsSetOf l).Nodup :=
  nodup_foldl_insertIfAbsent l [] (List.nodup_nil)

/-- `jsSetOf` preserves the underlying finite set of elements. -/
theorem toFinset_jsSetOf (l : List String) : (jsSetOf l).toFinset = l.toFinset := by
  ext x
  simp [List.mem_toFinset, mem_jsSetOf]

/-- The length of `jsSetOf l` is the number of distinct elements of `l`. -/
theorem length_jsSetOf (l : List String) : (jsSetOf l).length = l.toFinset.card := by
  rw [← toFinset_jsSetOf, List.toFinset_card_of_nodup (nodup_jsSetOf l)]

/-- Invariant of the top-category loop: the final accumulator either is the
initial one or holds a scanned key together with its own score, never
decreases, and dominates the score of every scanned key. -/
theorem topCatLoop_spec (f : String → ℕ) :
    ∀ (ks : List String) (acc : ℕ × String),
      (ks.foldl (topCatStep f) acc = acc ∨
        ((ks.foldl (topCatStep f) acc).2 ∈ ks ∧
         (ks.foldl (topCatStep f) acc).1 = f (ks.foldl (topCatStep f) acc).2)) ∧
      acc.1 ≤ (ks.foldl (topCatStep f) acc).1 ∧
      ∀ c ∈ ks, f c ≤ (ks.foldl (topCatStep f) acc).1 := by
  intro ks
  induction ks with
  | nil => intro acc; simp
  | cons k ks ih =>
    intro acc
    rw [List.foldl_cons]
    obtain ⟨ihd, ihle, ihall⟩ := ih (topCatStep f acc k)
    have hstep : acc.1 ≤ (topCatStep f acc k).1 ∧ f k ≤ (topCatStep f acc k).1 ∧
        (topCatStep f acc k = acc ∨
          ((topCatStep f acc k).2 = k ∧ (topCatStep f acc k).1 = f k)) := by
      unfold topCatStep
      by_cases h : acc.1 < f k
      · rw [if_pos h]
        exact ⟨Nat.le_of_lt h, Nat.le_refl _, Or.inr ⟨rfl, rfl⟩⟩
      · rw [if_neg h]
        exact ⟨Nat.le_refl _, Nat.le_of_not_lt h, Or.inl rfl⟩
    refine ⟨?_, Nat.le_trans hstep.1 ihle, ?_⟩
    · rcases ihd with h1 | h1
      · rw [h1]
        rcases hstep.2.2 with h2 | h2
        · exact Or.inl h2
        · exact Or.inr ⟨by rw [h2.1]; exact List.mem_cons_self k ks, by rw [h2.2, h2.1]⟩
      · exact Or.inr ⟨List.mem_cons_of_mem k h1.1, h1.2⟩
    · intro c hc
      rcases List.mem_cons.mp hc with rfl | hc
      · exact Nat.le_trans hstep.2.1 ihle
      · exact ihall c hc

/-- For a non-empty transaction list, `topCategory` is one of the occurring
categories and its frequency is maximal. -/
theorem topCategory_spec (l : List Transaction) (h : l ≠ []) :
    topCategory l ∈ categoriesOf l ∧
    ∀ c ∈ categoriesOf l, freqOf l c ≤ freqOf l (topCategory l) := by
  have hlen : 0 < l.length := List.length_pos.mpr h
  unfold topCategory
  rw [if_pos hlen]
  obtain ⟨hd, -, hall⟩ :=
    topCatLoop_spec (freqOf l) (jsSetOf (categoriesOf l)) (0, "None")
  cases l with
  | nil => exact absurd rfl h
  | cons t l' =>
    have hc0 : t.category ∈ categoriesOf (t :: l') := by
      unfold categoriesOf; exact List.mem_map_of_mem _ (List.mem_cons_self t l')
    have hc0k : t.category ∈ jsSetOf (categoriesOf (t :: l')) :=
      (mem_jsSetOf _ _).mpr hc0
    have hf1 : 0 < freqOf (t :: l') t.category := by
      unfold freqOf; exact List.count_pos_iff.mpr hc0
    rcases hd with hrr | hrr
    · exfalso
      have hle := hall t.category hc0k
      rw [hrr] at hle
      omega
    · refine ⟨(mem_jsSetOf _ _).mp hrr.1, ?_⟩
      intro c hc
      have hle := hall c ((mem_jsSetOf _ _).mpr hc)
      rw [hrr.2] at hle
      exact hle

/-- A left fold of amount addition is the initial value plus the amount sum. -/
theorem foldl_add_amount :
    ∀ (l : List Transaction) (init : ℚ),
      l.foldl (fun sum t => sum + t.amount) init = init + (l.map (fun t => t.amount)).sum := by
  intro l
  induction l with
  | nil => intro init; simp
  | cons t l ih =>
    intro init
    rw [List.foldl_cons, ih, List.map_cons, List.sum_cons]
    ring

/-- `averageSpend` agrees with the arithmetic mean (and is `0` on the empty
list). -/
theorem averageSpend_eq (l : List Transaction) :
    averageSpend l =
      if l.length = 0 then 0 else (l.map (fun t => t.amount)).sum / (l.length : ℚ) := by
  unfold averageSpend
  rcases Nat.eq_zero_or_pos l.length with h | h
  · simp [h]
  · rw [if_pos h, if_neg (Nat.pos_iff_ne_zero.mp h), foldl_add_amount]
    rw [zero_add]

/-! ## Claim theorems: UserStatistics -/

/-- C1: for every transaction list, the displayed `averageSpend` equals the
arithmetic mean of the `amount` fields (`0` on the empty list), and the
displayed `topCategory` is a category of maximal frequency among the
transactions' `category` fields (`"None"` on the empty list). -/
theorem userStatistics_mean_and_mode (l : List Transaction) :
    (averageSpend l =
      if l.length = 0 then 0 else (l.map (fun t => t.amount)).sum / (l.length : ℚ)) ∧
    (l = [] → topCategory l = "None") ∧
    (l ≠ [] →
      topCategory l ∈ categoriesOf l ∧
      ∀ c ∈ categoriesOf l, freqOf l c ≤ freqOf l (topCategory l)) :=
  ⟨averageSpend_eq l, fun h => by rw [h]; rfl, fun h => topCategory_spec l h⟩

/-- Concrete instantiation of the C1 theorem on a three-transaction list. -/
def exTx : List Transaction := [⟨10, "food"⟩, ⟨20, "food"⟩, ⟨30, "travel"⟩]

/-- Witness for C1: the hypotheses of `userStatistics_mean_and_mode` are
dischargeable on the concrete list `exTx`. -/
theorem userStatistics_mean_and_mode_witness :
    exTx ≠ [] ∧ topCategory exTx ∈ categoriesOf exTx ∧
      freqOf exTx "travel" ≤ freqOf exTx (topCategory exTx) := by
  have h := (userStatistics_mean_and_mode exTx).2.2 (by decide)
  exact ⟨by decide, h.1, h.2 "travel" (by decide)⟩

/-- C7: with a loaded user, `userTier` is `"Silver"` whenever the transaction
list is empty (regardless of `totalSpent`), and otherwise `"Platinum"` exactly
for `totalSpent > 10000`, `"Gold"` exactly for `5000 < totalSpent ≤ 10000`,
and `"Silver"` otherwise. -/
theorem userTier_tiers (u : UserRec) (l : List Transaction) :
    userTier (some u) l =
      if l.length = 0 then "Silver"
      else if u.totalSpent > 10000 then "Platinum"
      else if u.totalSpent > 5000 then "Gold"
      else "Silver" := by
  unfold userTier
  rcases Nat.eq_zero_or_pos l.length with h | h
  · simp [h]
  · rw [if_pos h, if_neg (Nat.pos_iff_ne_zero.mp h)]
    by_cases h1 : u.totalSpent > 10000
    · simp [h1]
    · rw [if_neg (by simpa using h1), if_neg h1]
      by_cases h2 : u.totalSpent > 5000
      · simp [h2]
      · rw [if_neg (by simpa using h2), if_neg h2]

/-! ## Claim theorems: OrdersDashboard utilities -/

/-- C9: `getCustomerEmails` returns a duplicate-free list whose members are
exactly the `customerEmail` values of the orders, and its length is the number
of distinct customer emails. -/
theorem getCustomerEmails_distinct (orders : List Order) :
    (getCustomerEmails orders).Nodup ∧
    (∀ e, e ∈ getCustomerEmails orders ↔ ∃ o ∈ orders, o.customerEmail = e) ∧
    (getCustomerEmails orders).length =
      (orders.map (fun o => o.customerEmail)).toFinset.card := by
  refine ⟨nodup_jsSetOf _, ?_, length_jsSetOf _⟩
  intro e
  unfold getCustomerEmails
  rw [mem_jsSetOf, List.mem_map]

/-! ## Claim theorems: task router -/

/-- C2: every response of the five task-router handlers is a JSON envelope —
`ok: true` with a `data` field and no `error` on every success path, and
`ok: false` with an `error` string and no `data` on every failure path. -/
theorem taskRouter_envelope :
    (∀ r, isEnvelope (getTaskById r)) ∧
    (∀ b ur saveOk, isEnvelope (createTask b ur saveOk)) ∧
    (∀ r, isEnvelope (searchTasks r)) ∧
    (∀ r, isEnvelope (updateTask r)) ∧
    (∀ r, isEnvelope (deleteTask r)) := by
  refine ⟨?_, ?_, ?_, ?_, ?_⟩
  · intro r
    cases r with
    | ok t => cases t <;> exact Or.inl ⟨rfl, rfl, rfl⟩
    | thrown => exact Or.inr ⟨rfl, rfl, rfl⟩
  · intro b ur saveOk
    cases ur with
    | ok ou =>
      cases ou with
      | none => exact Or.inr ⟨rfl, rfl, rfl⟩
      | some u =>
        cases saveOk with
        | true => exact Or.inl ⟨rfl, rfl, rfl⟩
        | false => exact Or.inr ⟨rfl, rfl, rfl⟩
    | thrown => exact Or.inr ⟨rfl, rfl, rfl⟩
  · intro r
    cases r with
    | ok ts => exact Or.inl ⟨rfl, rfl, rfl⟩
    | thrown => exact Or.inr ⟨rfl, rfl, rfl⟩
  · intro r
    cases r with
    | ok t => cases t with
      | none => exact Or.inr ⟨rfl, rfl, rfl⟩
      | some task => exact Or.inl ⟨rfl, rfl, rfl⟩
    | thrown => exact Or.inr ⟨rfl, rfl, rfl⟩
  · intro r
    cases r with
    | ok t => cases t with
      | none => exact Or.inr ⟨rfl, rfl, rfl⟩
      | some task => exact Or.inl ⟨rfl, rfl, rfl⟩
    | thrown => exact Or.inr ⟨rfl, rfl, rfl⟩

/-- C8: when no task matches the id, `GET /:id` answers `200` with
`{ok: true, data: null}`, while `PUT /:id` and `DELETE /:id` answer `404` with
`{ok: false, error: "Task not found"}`. -/
theorem taskRouter_missing_id :
    getTaskById (.ok none) = ⟨200, true, some .pNull, none⟩ ∧
    updateTask (.ok none) = ⟨404, false, none, some "Task not found"⟩ ∧
    deleteTask (.ok none) = ⟨404, false, none, some "Task not found"⟩ :=
  ⟨rfl, rfl, rfl⟩

/-! ## Claim theorems: OrdersDashboard always lands in catch -/

/-- Calling `.json()` on a parsed JSON value always throws. -/
theorem callJsonMethod_isError (v : Json) : ∃ m, callJsonMethod v = .error (.typeError m) := by
  cases v <;> exact ⟨_, rfl⟩

/-- Case analysis of `api.post` over every fetch outcome: either the reply
has a non-200 status and JSON body `null` — then the promise rejects with
`null`, on which reading `.message` throws — or any rejection reason supports
the `err.message` read. -/
theorem apiPost_cases (f : FetchOutcome) :
    (rejectsNullReason f = true ∧ apiPost f = .error (.rejectedWith .null)) ∨
    (rejectsNullReason f = false ∧
      ((∃ e, apiPost f = .error e ∧ ∃ m, errMessageRead e = .ok m) ∨
       (∃ res, apiPost f = .ok res))) := by
  cases f with
  | netErr =>
    exact Or.inr ⟨rfl, Or.inl ⟨.netError, rfl, ⟨some (.str "Failed to fetch"), rfl⟩⟩⟩
  | reply status okFlag body =>
    cases body with
    | none =>
      exact Or.inr ⟨rfl,
        Or.inl ⟨.parseError, rfl, ⟨some (.str "Unexpected end of JSON input"), rfl⟩⟩⟩
    | some res =>
      by_cases hst : status = 200
      · subst hst
        refine Or.inr ⟨?_, Or.inr ⟨res, rfl⟩⟩
        cases res <;> simp [rejectsNullReason]
      · cases res with
        | null =>
          refine Or.inl ⟨by simp [rejectsNullReason, hst], ?_⟩
          simp only [apiPost]
          rw [if_pos hst]
        | bool b =>
          refine Or.inr ⟨rfl, Or.inl ⟨.rejectedWith (.bool b), ?_,
            ⟨jsonGetField (.bool b) "message", rfl⟩⟩⟩
          simp only [apiPost]
          rw [if_pos hst]
        | num q =>
          refine Or.inr ⟨rfl, Or.inl ⟨.rejectedWith (.num q), ?_,
            ⟨jsonGetField (.num q) "message", rfl⟩⟩⟩
          simp only [apiPost]
          rw [if_pos hst]
        | str sv =>
          refine Or.inr ⟨rfl, Or.inl ⟨.rejectedWith (.str sv), ?_,
            ⟨jsonGetField (.str sv) "message", rfl⟩⟩⟩
          simp only [apiPost]
          rw [if_pos hst]
        | arr xs =>
          refine Or.inr ⟨rfl, Or.inl ⟨.rejectedWith (.arr xs), ?_,
            ⟨jsonGetField (.arr xs) "message", rfl⟩⟩⟩
          simp only [apiPost]
          rw [if_pos hst]
        | obj kvs =>
          refine Or.inr ⟨rfl, Or.inl ⟨.rejectedWith (.obj kvs), ?_,
            ⟨jsonGetField (.obj kvs) "message", rfl⟩⟩⟩
          simp only [apiPost]
          rw [if_pos hst]

/-- Case analysis of `api.put` over every fetch outcome: it never rejects with
a parsed value, and its rejections (network, parse) always support the
`err.message` read. -/
theorem apiPut_cases (f : FetchOutcome) :
    (∃ e, apiPut f = .error e ∧ ∃ m, errMessageRead e = .ok m) ∨
    (∃ res, apiPut f = .ok res) := by
  cases f with
  | netErr => exact Or.inl ⟨.netError, rfl, ⟨some (.str "Failed to fetch"), rfl⟩⟩
  | reply status okFlag body =>
    cases body with
    | none => exact Or.inl ⟨.parseError, rfl, ⟨some (.str "Unexpected end of JSON input"), rfl⟩⟩
    | some res => exact Or.inr ⟨res, rfl⟩

/-- C3 counterexample: when the server answers a non-200 status with the valid
JSON body `null`, `api.post` rejects with `null`; in the catch of
`fetchOrders` the read `err.message` is a property access on `null` and
throws before `setError` runs, so the error state is never set — refuting the
claim that every run of `fetchOrders` sets the error state. -/
theorem ordersDashboard_catch_cex : ¬ dashboardCatchClaim := by
  intro h
  obtain ⟨m, hm⟩ :=
    (h.2.1 (Json.obj []) (.reply 500 false (some .null)) ⟨[], true, some .null⟩).2.2
  have hrun : (fetchOrders (Json.obj []) (.reply 500 false (some .null))
      ⟨[], true, some .null⟩).2 =
      .catchThrew "Cannot read properties of null (reading message)" := rfl
  rw [hrun] at hm
  exact FetchRunOutcome.noConfusion hm

/-- C3 (amended): because `API.post`/`API.put` resolve with parsed JSON and
the callers call `.json()` on that value, every run ends in the catch branch:
`sendReminderEmail` never shows its success alert, `fetchOrders` never stores
orders and clears `loading`, and `markAsShipped` never updates the order's
status and ends in an error alert.  `fetchOrders` sets the error state — and
`sendReminderEmail` shows its error alert — for every server reply except a
non-200 reply whose JSON body is `null`: there the catch handler's own
`err.message` read throws, so no alert is shown and the error state is left
unchanged. -/
theorem ordersDashboard_catch_outcomes :
    (∀ oid f m, sendReminderEmail oid f ≠ .successAlert m) ∧
    (∀ oid f,
      (rejectsNullReason f = false → ∃ m, sendReminderEmail oid f = .errorAlert m) ∧
      (rejectsNullReason f = true → ∃ tm, sendReminderEmail oid f = .uncaughtThrow tm)) ∧
    (∀ fl f s,
      (fetchOrders fl f s).1.orders = s.orders ∧
      (fetchOrders fl f s).1.loading = false ∧
      (∀ os, (fetchOrders fl f s).2 ≠ .setOrdersCalled os) ∧
      (rejectsNullReason f = false →
        ∃ m, (fetchOrders fl f s).2 = .setErrorCalled m ∧
          (fetchOrders fl f s).1.error = m) ∧
      (rejectsNullReason f = true →
        ∃ tm, (fetchOrders fl f s).2 = .catchThrew tm ∧
          (fetchOrders fl f s).1.error = s.error)) ∧
    (∀ oid f os, (markAsShipped oid f os).1 = os ∧
      ∃ m, (markAsShipped oid f os).2 = .errorAlert m) := by
  have hsend : ∀ oid f,
      (rejectsNullReason f = true ∧ sendReminderEmail oid f =
        .uncaughtThrow "Cannot read properties of null (reading message)") ∨
      (rejectsNullReason f = false ∧ ∃ m, sendReminderEmail oid f = .errorAlert m) := by
    intro oid f
    rcases apiPost_cases f with ⟨hn, hp⟩ | ⟨hn, ⟨e, hp, m, hmr⟩ | ⟨res, hp⟩⟩
    · refine Or.inl ⟨hn, ?_⟩
      unfold sendReminderEmail
      rw [hp]
      rfl
    · refine Or.inr ⟨hn, ?_⟩
      unfold sendReminderEmail
      rw [hp]
      dsimp only
      unfold catchAlert
      rw [hmr]
      exact ⟨_, rfl⟩
    · refine Or.inr ⟨hn, ?_⟩
      unfold sendReminderEmail
      rw [hp]
      dsimp only
      obtain ⟨tm, htm⟩ := callJsonMethod_isError res
      rw [htm]
      exact ⟨_, rfl⟩
  have hfetch : ∀ fl f s,
      (rejectsNullReason f = true ∧ fetchOrders fl f s =
        (⟨s.orders, false, s.error⟩,
         .catchThrew "Cannot read properties of null (reading message)")) ∨
      (rejectsNullReason f = false ∧ ∃ m, fetchOrders fl f s =
        (⟨s.orders, false, m⟩, .setErrorCalled m)) := by
    intro fl f s
    rcases apiPost_cases f with ⟨hn, hp⟩ | ⟨hn, ⟨e, hp, m, hmr⟩ | ⟨res, hp⟩⟩
    · refine Or.inl ⟨hn, ?_⟩
      unfold fetchOrders
      rw [hp]
      rfl
    · refine Or.inr ⟨hn, ?_⟩
      unfold fetchOrders
      rw [hp]
      dsimp only
      unfold fetchOrdersCatch
      rw [hmr]
      exact ⟨_, rfl⟩
    · refine Or.inr ⟨hn, ?_⟩
      unfold fetchOrders
      rw [hp]
      dsimp only
      obtain ⟨tm, htm⟩ := callJsonMethod_isError res
      rw [htm]
      exact ⟨_, rfl⟩
  refine ⟨?_, ?_, ?_, ?_⟩
  · intro oid f m hc
    rcases hsend oid f with ⟨-, h⟩ | ⟨-, m2, h⟩ <;>
      rw [h] at hc <;> exact AlertOutcome.noConfusion hc
  · intro oid f
    constructor
    · intro hf
      rcases hsend oid f with ⟨hn, -⟩ | ⟨-, hm⟩
      · rw [hn] at hf
        exact Bool.noConfusion hf
      · exact hm
    · intro hf
      rcases hsend oid f with ⟨-, h⟩ | ⟨hn, -⟩
      · exact ⟨_, h⟩
      · rw [hn] at hf
        exact Bool.noConfusion hf
  · intro fl f s
    rcases hfetch fl f s with ⟨hn, h⟩ | ⟨hn, m, h⟩
    · rw [h]
      refine ⟨rfl, rfl, fun os hc => FetchRunOutcome.noConfusion hc, ?_, ?_⟩
      · intro hf
        rw [hn] at hf
        exact Bool.noConfusion hf
      · intro hf
        exact ⟨_, rfl, rfl⟩
    · rw [h]
      refine ⟨rfl, rfl, fun os hc => FetchRunOutcome.noConfusion hc, ?_, ?_⟩
      · intro hf
        exact ⟨m, rfl, rfl⟩
      · intro hf
        rw [hn] at hf
        exact Bool.noConfusion hf
  · intro oid f os
    unfold markAsShipped
    rcases apiPut_cases f with ⟨e, hp, m, hmr⟩ | ⟨res, hp⟩
    · rw [hp]
      dsimp only
      refine ⟨rfl, ?_⟩
      unfold catchAlert
      rw [hmr]
      exact ⟨_, rfl⟩
    · rw [hp]
      dsimp only
      obtain ⟨tm, htm⟩ := callJsonMethod_isError res
      rw [htm]
      exact ⟨rfl, _, rfl⟩

/-! ## Claim theorems: apiClient -/

/-- The error message the code builds coincides with the amended description:
the `message` field when present and truthy, the fallback otherwise. -/
theorem apiClientErrMsg_eq_truthy (body : Json) :
    apiClientErrMsg body = specMessageTruthy body := by
  unfold apiClientErrMsg specMessageTruthy jsOr
  cases jsonGetField body "message" with
  | none => simp [jsToString]
  | some v =>
    by_cases hv : jsTruthyV v
    · simp [hv]
    · simp [hv, jsToString]

/-- C4 counterexample: with an `ok: false` reply whose body carries the
(present but falsy) field `message: ""`, `apiClient.get` throws
`"API request failed"` rather than the present `message` field, so the claim
as stated is false. -/
theorem apiClient_message_not_exact : ¬ apiClientSpecClaim := by
  intro h
  have h2 := ((h 400 (Json.obj [("message", Json.str "")])).2).1
  have h4 : specMessagePresent (Json.obj [("message", Json.str "")]) = "" := by
    simp [specMessagePresent, jsonGetField, jsToString]
  have h3 : apiClientGet (.reply 400 false (some (Json.obj [("message", Json.str "")]))) =
      (.error (.thrownError "API request failed"), ["API GET error: API request failed"]) := by
    have hm : apiClientErrMsg (Json.obj [("message", Json.str "")]) = "API request failed" := by
      simp [apiClientErrMsg, jsonGetField, jsOr, jsTruthyV, jsToString]
    show (Except.error (JsErr.thrownError (apiClientErrMsg (Json.obj [("message", Json.str "")]))),
        ["API GET error: " ++ apiClientErrMsg (Json.obj [("message", Json.str "")])]) =
      (Except.error (JsErr.thrownError "API request failed"),
        ["API GET error: API request failed"])
    rw [hm]
    simp
  rw [h3, h4] at h2
  exact absurd (congrArg Prod.snd h2) (by decide)

/-- C4 (amended): each apiClient method returns the parsed JSON body exactly
when the reply is ok (logging nothing), and otherwise throws an error whose
message is the body's `message` field when present and truthy and
`"API request failed"` otherwise, logging that same error once and rethrowing
it unchanged; a network failure is likewise logged and rethrown unchanged. -/
theorem apiClient_result_spec (status : ℕ) (body : Json) :
    (apiClientGet (.reply status true (some body)) = (.ok body, []) ∧
     apiClientPost (.reply status true (some body)) = (.ok body, []) ∧
     apiClientPut (.reply status true (some body)) = (.ok body, [])) ∧
    (apiClientGet (.reply status false (some body)) =
       (.error (.thrownError (specMessageTruthy body)),
        ["API GET error: " ++ specMessageTruthy body]) ∧
     apiClientPost (.reply status false (some body)) =
       (.error (.thrownError (specMessageTruthy body)),
        ["API POST error: " ++ specMessageTruthy body]) ∧
     apiClientPut (.reply status false (some body)) =
       (.error (.thrownError (specMessageTruthy body)),
        ["API PUT error: " ++ specMessageTruthy body])) ∧
    (apiClientGet .netErr = (.error .netError, ["API GET error: Failed to fetch"]) ∧
     apiClientPost .netErr = (.error .netError, ["API POST error: Failed to fetch"]) ∧
     apiClientPut .netErr = (.error .netError, ["API PUT error: Failed to fetch"])) := by
  refine ⟨⟨rfl, rfl, rfl⟩, ⟨?_, ?_, ?_⟩, ⟨rfl, rfl, rfl⟩⟩ <;>
    rw [← apiClientErrMsg_eq_truthy body] <;> rfl

/-! ## Claim theorems: task schema constraints -/

/-- C5 counterexample: the Task schema does constrain fields — `status` (among
others) carries both an `enum` list and a schema-enforced default, so the
claim that no field of the Task schema is so constrained is false. -/
theorem taskSchema_has_constraints :
    ¬ (∀ f ∈ taskSchemaFields, f.enumVals = none ∧ f.dfault = none) := by
  decide

/-- C5 (amended): within the Task schema exactly `status`, `comments` and
`priority` carry an `enum` constraint or a schema-enforced default — `status`
restricted to `todo/in_progress/review/done` with default `"todo"`,
`priority` restricted to `low/medium/high` with default `"medium"`, and
`comments` defaulting to the empty list — while every other field (and, in the
embedded comment schema, every field except `createdAt` with its `Date.now`
default) carries neither. -/
theorem taskSchema_constrained_fields :
    taskSchemaFields.filter (fun f => f.enumVals.isSome || f.dfault.isSome) =
      [⟨"status", some ["todo", "in_progress", "review", "done"], some (.strVal "todo")⟩,
       ⟨"comments", none, some .emptyList⟩,
       ⟨"priority", some ["low", "medium", "high"], some (.strVal "medium")⟩] ∧
    commentSchemaFields.filter (fun f => f.enumVals.isSome || f.dfault.isSome) =
      [⟨"createdAt", none, some .dateNow⟩] := by
  constructor <;> rfl

/-! ## Claim theorems: shared mutable state -/

/-- Looking up the key just written by `lsSetItem` yields the new value. -/
theorem lsGetItem_setItem_self (ls : List (String × String)) (k v : String) :
    lsGetItem (lsSetItem ls k v) k = some v := by
  unfold lsGetItem lsSetItem
  induction ls with
  | nil => simp
  | cons kv ls ih =>
    rw [List.filter_cons]
    by_cases h : kv.1 = k
    · rw [if_neg (by simp [h])]
      exact ih
    · rw [if_pos (by simpa using h), List.cons_append, List.find?_cons_of_neg _ (by simpa using h)]
      exact ih

/-- Looking up a different key after `lsSetItem` is unchanged. -/
theorem lsGetItem_setItem_other (ls : List (String × String)) (k v k' : String)
    (hk : k' ≠ k) : lsGetItem (lsSetItem ls k v) k' = lsGetItem ls k' := by
  unfold lsGetItem lsSetItem
  induction ls with
  | nil => simp [Ne.symm hk]
  | cons kv ls ih =>
    rw [List.filter_cons]
    by_cases h : kv.1 = k
    · rw [if_neg (by simpa using h), List.find?_cons_of_neg _ (by simp [h, Ne.symm hk])]
      exact ih
    · rw [if_pos (by simpa using h), List.cons_append]
      by_cases h2 : kv.1 = k'
      · rw [List.find?_cons_of_pos _ (by simpa using h2),
          List.find?_cons_of_pos _ (by simpa using h2)]
      · rw [List.find?_cons_of_neg _ (by simpa using h2),
          List.find?_cons_of_neg _ (by simpa using h2)]
        exact ih

/-- Looking up a key just removed by `lsRemoveItem` yields nothing. -/
theorem lsGetItem_removeItem_self (ls : List (String × String)) (k : String) :
    lsGetItem (lsRemoveItem ls k) k = none := by
  unfold lsGetItem lsRemoveItem
  induction ls with
  | nil => rfl
  | cons kv ls ih =>
    rw [List.filter_cons]
    by_cases h : kv.1 = k
    · rw [if_neg (by simp [h])]
      exact ih
    · rw [if_pos (by simpa using h), List.find?_cons_of_neg _ (by simpa using h)]
      exact ih

/-- C6 counterexample: `api.setToken` does mutate module-level state — writing
a token to the freshly constructed singleton changes it — so the claim that no
operation writes to non-component-local mutable state is false. -/
theorem sharedMutableState_cex : ¬ noSharedMutableStateClaim := by
  intro h
  have h1 := h.1 apiConstructor "jwt-token"
  exact absurd (congrArg ApiTokenState.token h1) (by decide)

/-- C6 (amended): the exercise code does write mutable state beyond
component-local UI state in specific places — the `api` singleton's
module-level token is set, read back and cleared by its methods, the
`useSearchStateStorage` effect persists the query and filters to
browser-global `localStorage` whenever saving is enabled (and leaves it
untouched otherwise), `authService` writes and removes the `"user"` entry of
`localStorage`, and `userService.updateUserProfile` overwrites a stored
`"user"` entry after a successful profile update. -/
theorem sharedMutableState_writes (s : ApiTokenState) (t q fj uj mj : String)
    (ls : List (String × String)) :
    apiGetToken (apiSetToken s t) = t ∧
    apiRemoveToken s = apiConstructor ∧
    apiSetToken apiConstructor "jwt-token" ≠ apiConstructor ∧
    lsGetItem (searchStateEffect true q fj ls) "lastSearchFilters" = some fj ∧
    lsGetItem (searchStateEffect true q fj ls) "lastSearchQuery" = some q ∧
    searchStateEffect false q fj ls = ls ∧
    lsGetItem (authLoginStore ls uj) "user" = some uj ∧
    lsGetItem (authLogoutStore ls) "user" = none ∧
    lsGetItem (userProfileStore ls mj) "user" =
      (if (lsGetItem ls "user").isSome then some mj else none) := by
  refine ⟨rfl, rfl, ?_, ?_, ?_, rfl, ?_, ?_, ?_⟩
  · intro hcon
    exact absurd (congrArg ApiTokenState.token hcon) (by decide)
  · unfold searchStateEffect
    rw [if_pos rfl]
    exact lsGetItem_setItem_self _ _ _
  · unfold searchStateEffect
    rw [if_pos rfl, lsGetItem_setItem_other _ _ _ _ (by decide)]
    exact lsGetItem_setItem_self _ _ _
  · exact lsGetItem_setItem_self _ _ _
  · exact lsGetItem_removeItem_self _ _
  · unfold userProfileStore
    cases hu : lsGetItem ls "user" with
    | none => simp [hu]
    | some u => simp [hu, lsGetItem_setItem_self]
